import Mathlib

/-!
Verification of the CPP_Basic demonstration programs.

Each C++ demonstration program is shallowly embedded: the vectors, maps and
strings it builds become Lean lists, the standard-library calls it makes
become executable Lean functions modelling the documented behaviour of those
calls, and the try/catch blocks become computations in `Except` together
with an explicit handler.  The theorems settle the claims of the
specification against these embeddings.
-/

/-! ## The algorithm demonstration (src/algorithm/algorithm.cpp) -/

/-- Model of the `std::sort(first, last)` call of algorithm.cpp line 119:
`std::sort` sorts the range in ascending order; modelled by insertion sort
over `≤` on `Int`. -/
def stdSort (l : List Int) : List Int := l.insertionSort (· ≤ ·)

/-- The vector `sortVec = {8, 1, 4, 3, 7, 2, 5, 6}` of algorithm.cpp line 115. -/
def sortVecInput : List Int := [8, 1, 4, 3, 7, 2, 5, 6]

/-- The vector `removeVec = {1, 2, 3, 2, 4, 5, 2}` of algorithm.cpp line 92. -/
def removeVecInput : List Int := [1, 2, 3, 2, 4, 5, 2]

/-- Model of the loop inside `std::remove(first, last, val)` (algorithm.cpp
line 94): a read index `i` scans the array while a write index `k` receives
every element that differs from `v`; elements at positions `k` and beyond
after the scan are left over.  The function returns the final array together
with the final write index (the offset of the iterator `std::remove`
returns). -/
def removeAux (v : Int) (arr : List Int) (i k : Nat) : List Int × Nat :=
  if h : i < arr.length then
    let x := arr[i]
    if x = v then removeAux v arr (i + 1) k
    else removeAux v (arr.set k x) (i + 1) (k + 1)
  else (arr, k)
termination_by arr.length - i
decreasing_by
  all_goals first
  | omega
  | (simp only [List.length_set]; omega)

/-- Model of the remove-erase idiom of algorithm.cpp lines 94-96: run the
`std::remove` scan, then `erase(new_end_it, end())` truncates the vector at
the returned iterator. -/
def removeErase (l : List Int) (v : Int) : List Int :=
  let p := removeAux v l 0 0
  p.1.take p.2

/-! ## The numeric demonstration (src/numeric/numeric.cpp) -/

/-- The vector `myVec = {1, 2, 3, 4, 5}` of numeric.cpp line 21. -/
def numericVecInput : List Int := [1, 2, 3, 4, 5]

/-- Model of `std::accumulate(first, last, init)` (numeric.cpp line 26):
fold the addition over the range starting from the initial value. -/
def accumulate (l : List Int) (init : Int) : Int :=
  l.foldl (fun acc x => acc + x) init

/-- Helper loop for the `std::partial_sum` model: carries the running total
and emits it after each element, exactly as the output iterator of
`std::partial_sum` receives it. -/
def runningSumsFrom (acc : Int) : List Int → List Int
  | [] => []
  | x :: xs => (acc + x) :: runningSumsFrom (acc + x) xs

/-- Model of `std::partial_sum(first, last, result)` (numeric.cpp line 46):
the i-th output element is the sum of the first i+1 input elements. -/
def runningSums (l : List Int) : List Int := runningSumsFrom 0 l

/-! ## Lemmas about the algorithm and numeric models -/

theorem accumulate_eq_add_sum (l : List Int) : ∀ init : Int, accumulate l init = init + l.sum := by
  induction l with
  | nil => intro init; simp [accumulate]
  | cons x xs ih =>
      intro init
      have h := ih (init + x)
      simp only [accumulate, List.foldl_cons] at h ⊢
      rw [h, List.sum_cons]
      ring

theorem runningSumsFrom_getLast :
    ∀ (l : List Int) (acc : Int), l ≠ [] →
      (runningSumsFrom acc l).getLast? = some (acc + l.sum)
  | [], _, h => absurd rfl h
  | [x], acc, _ => by simp [runningSumsFrom]
  | x :: y :: ys, acc, _ => by
      have h := runningSumsFrom_getLast (y :: ys) (acc + x) (by simp)
      simp only [runningSumsFrom] at h ⊢
      rw [List.getLast?_cons_cons, h]
      simp only [List.sum_cons, Option.some.injEq]
      ring

theorem take_set_of_lt (x : Int) :
    ∀ (arr : List Int) (k : Nat), k < arr.length →
      (arr.set k x).take (k + 1) = arr.take k ++ [x]
  | [], k, h => absurd h (by simp)
  | a :: as, 0, _ => by simp
  | a :: as, k + 1, h => by
      have ih := take_set_of_lt x as k (by simpa using h)
      simp only [List.set_cons_succ, List.take_succ_cons, ih, List.cons_append]

theorem drop_set_of_le (x : Int) :
    ∀ (arr : List Int) (k i : Nat), k ≤ i →
      (arr.set k x).drop (i + 1) = arr.drop (i + 1)
  | [], _, _, _ => by simp
  | a :: as, 0, i, _ => by simp
  | a :: as, k + 1, 0, h => absurd h (by omega)
  | a :: as, k + 1, i + 1, h => by
      have ih := drop_set_of_le x as k i (by omega)
      simp only [List.set_cons_succ, List.drop_succ_cons, ih]

theorem drop_eq_imp_getElem? {arr l : List Int} {i : Nat}
    (h : arr.drop i = l.drop i) : arr[i]? = l[i]? := by
  have h0 := congrArg (fun t => t[0]?) h
  simpa using h0

theorem removeAux_filter (v : Int) (l : List Int) :
    ∀ (n : Nat) (arr : List Int) (i k : Nat), arr.length - i ≤ n →
      arr.length = l.length → k ≤ i →
      arr.take k = (l.take i).filter (fun x => decide (x ≠ v)) →
      arr.drop i = l.drop i →
      (removeAux v arr i k).1.take (removeAux v arr i k).2 =
        l.filter (fun x => decide (x ≠ v)) := by
  intro n
  induction n with
  | zero =>
      intro arr i k hn hlen hki htake hdrop
      rw [removeAux]
      have hni : ¬ i < arr.length := by omega
      simp only [hni, dite_false]
      have hla : l.take i = l := by
        apply List.take_of_length_le; omega
      rw [htake, hla]
  | succ m ih =>
      intro arr i k hn hlen hki htake hdrop
      rw [removeAux]
      by_cases hlt : i < arr.length
      · simp only [hlt, dite_true]
        have hil : i < l.length := by omega
        have hget : arr[i]? = l[i]? := drop_eq_imp_getElem? hdrop
        rw [List.getElem?_eq_getElem hlt, List.getElem?_eq_getElem hil] at hget
        have hx : arr[i] = l[i] := by
          simpa using hget
        have hdrop1 : arr.drop (i + 1) = l.drop (i + 1) := by
          rw [← List.tail_drop, ← List.tail_drop, hdrop]
        have htsucc : l.take (i + 1) = l.take i ++ [l[i]] := by
          rw [List.take_succ, List.getElem?_eq_getElem hil]
          simp
        by_cases hxv : arr[i] = v
        · simp only [hxv, if_true]
          apply ih arr (i + 1) k (by omega) hlen (by omega) _ hdrop1
          rw [htsucc, List.filter_append, htake]
          have hlv : l[i] = v := by rw [← hx, hxv]
          simp [hlv]
        · simp only [hxv, if_false]
          apply ih (arr.set k arr[i]) (i + 1) (k + 1)
            (by simp only [List.length_set]; omega)
            (by simp only [List.length_set]; omega) (by omega)
          · rw [take_set_of_lt _ arr k (by omega), htake, htsucc, List.filter_append]
            have hlv : l[i] ≠ v := by rw [← hx]; exact hxv
            simp [hlv, hx]
          · rw [drop_set_of_le _ arr k i hki, hdrop1]
      · simp only [hlt, dite_false]
        have hla : l.take i = l := by
          apply List.take_of_length_le; omega
        rw [htake, hla]

theorem removeErase_filter (l : List Int) (v : Int) :
    removeErase l v = l.filter (fun x => decide (x ≠ v)) := by
  have h := removeAux_filter v l l.length l 0 0 (by omega) rfl (by omega)
    (by simp) (by simp)
  simpa [removeErase] using h

/-! ## Claims about the algorithm and numeric demonstrations -/

/-- Claim C2: after `std::sort(sortVec.begin(), sortVec.end())` the vector is
in ascending order and is a permutation of its input; the input
`{8, 1, 4, 3, 7, 2, 5, 6}` becomes `{1, 2, 3, 4, 5, 6, 7, 8}`, and the
sortedness/permutation property holds for every integer vector. -/
theorem stdSort_ascending_perm :
    stdSort sortVecInput = [1, 2, 3, 4, 5, 6, 7, 8] ∧
    ∀ v : List Int, List.Sorted (· ≤ ·) (stdSort v) ∧ (stdSort v).Perm v :=
  ⟨by decide, fun v => ⟨List.sorted_insertionSort _ v, List.perm_insertionSort _ v⟩⟩

/-- Claim C3: `std::accumulate(first, last, 0)` returns the sum of all
elements plus the initial value 0; for `{1, 2, 3, 4, 5}` it returns 15, and
for every integer vector it equals the mathematical sum of its elements. -/
theorem accumulate_sum_correct :
    accumulate numericVecInput 0 = 15 ∧ ∀ v : List Int, accumulate v 0 = v.sum := by
  refine ⟨by decide, fun v => ?_⟩
  rw [accumulate_eq_add_sum]
  ring

/-- Claim C9: the remove-erase idiom (`std::remove` of `v` followed by
`erase` to `end()`) leaves the vector equal to the subsequence of its
original elements that differ from `v`, in their original relative order
(that is, the filter of the original vector); for `{1, 2, 3, 2, 4, 5, 2}`
with `v = 2` the result is `{1, 3, 4, 5}`. -/
theorem removeErase_spec :
    removeErase removeVecInput 2 = [1, 3, 4, 5] ∧
    ∀ (l : List Int) (v : Int), removeErase l v = l.filter (fun x => decide (x ≠ v)) := by
  refine ⟨?_, removeErase_filter⟩
  rw [removeErase_filter]
  decide

/-- Claim C10: for every non-empty integer vector the last element of the
`std::partial_sum` output equals `std::accumulate` over the same vector with
initial value 0; for `{1, 2, 3, 4, 5}` the partial sums are
`{1, 3, 6, 10, 15}` and the final partial sum equals the accumulate
result. -/
theorem runningSums_last_eq_accumulate :
    (∀ l : List Int, l ≠ [] → (runningSums l).getLast? = some (accumulate l 0)) ∧
    runningSums numericVecInput = [1, 3, 6, 10, 15] ∧
    (runningSums numericVecInput).getLast? = some (accumulate numericVecInput 0) := by
  refine ⟨fun l h => ?_, by decide, by decide⟩
  rw [runningSums, runningSumsFrom_getLast l 0 h, accumulate_eq_add_sum]

/-- Witness for claim C10: the relation instantiated at the demonstrated
vector `{1, 2, 3, 4, 5}`, whose non-emptiness is discharged concretely. -/
theorem runningSums_last_eq_accumulate_witness :
    (runningSums [1, 2, 3, 4, 5]).getLast? = some (accumulate [1, 2, 3, 4, 5] 0) :=
  runningSums_last_eq_accumulate.1 [1, 2, 3, 4, 5] (by decide)

/-! ## Checked element access demonstrations
(src/vector/vector.cpp, src/array/array.cpp, src/map/map.cpp,
src/unordered_map/unordered_map.cpp, src/string_view/string_view.cpp) -/

/-- Model of bounds-checked `at(index)` on an integer sequence
(`std::vector::at`, `std::array::at`): returns the element, or raises
`std::out_of_range` (modelled as the error payload). -/
def seqAt (l : List Int) (i : Nat) : Except String Int :=
  if h : i < l.length then Except.ok l[i] else Except.error "out_of_range"

/-- Model of `std::string_view::at(pos)` on the viewed character sequence. -/
def svAt (s : List Char) (i : Nat) : Except String Char :=
  if h : i < s.length then Except.ok s[i] else Except.error "out_of_range"

/-- Model of `map::insert` / `unordered_map::insert` / `emplace` on an
association list: inserts only when the key is not yet present. -/
def mapInsert (m : List (String × Int)) (k : String) (v : Int) : List (String × Int) :=
  if m.any (fun p => p.1 == k) then m else m ++ [(k, v)]

/-- Model of `operator[]` assignment on a map: updates the value when the key
exists, inserts a new pair otherwise. -/
def mapSet (m : List (String × Int)) (k : String) (v : Int) : List (String × Int) :=
  if m.any (fun p => p.1 == k) then
    m.map (fun p => if p.1 == k then (p.1, v) else p)
  else m ++ [(k, v)]

/-- Model of `map::at(key)` / `unordered_map::at(key)`: returns the mapped
value, or raises `std::out_of_range` when the key is absent. -/
def mapAt (m : List (String × Int)) (k : String) : Except String Int :=
  match m.find? (fun p => p.1 == k) with
  | some p => Except.ok p.2
  | none => Except.error "out_of_range"

/-- The vector of vector.cpp at its Part-2 element-access block: five
`push_back(i * 10)` calls produce `[0, 10, 20, 30, 40]`. -/
def vectorDemoPart2 : List Int := (List.range 5).map (fun i => (i : Int) * 10)

/-- The array `myArray = {10, 20, 30, 40, 50}` of array.cpp line 13. -/
def arrayDemo : List Int := [10, 20, 30, 40, 50]

/-- The map of map.cpp at its at() block: three inserts followed by two
`operator[]` assignments (map.cpp lines 16-24). -/
def mapDemo : List (String × Int) :=
  mapSet (mapSet (mapInsert (mapInsert (mapInsert [] "apple" 1) "banana" 2) "cherry" 3)
    "durian" 4) "apple" 5

/-- The unordered_map of unordered_map.cpp at its at() block: the same
operations as mapDemo followed by `emplace("elderberry", 6)`
(unordered_map.cpp lines 16-33). -/
def umapDemo : List (String × Int) := mapInsert mapDemo "elderberry" 6

/-- The view `access_view = "access"` of string_view.cpp line 44. -/
def accessView : List Char := "access".toList

/-- The statements actually executed inside the try block of vector.cpp
lines 65-71: only the in-bounds `myVector.at(2)` (the out-of-range
`myVector.at(10)` on line 68 is commented out). -/
def vectorAtTry : Except String (List String) := do
  let x ← seqAt vectorDemoPart2 2
  pure ["Element at index 2 (using at()): " ++ toString x]

/-- The statements actually executed inside the try block of array.cpp
lines 33-39: only the in-bounds `myArray.at(2)` (the out-of-range
`myArray.at(10)` on line 36 is commented out). -/
def arrayAtTry : Except String (List String) := do
  let x ← seqAt arrayDemo 2
  pure ["Element at index 2 (using at()): " ++ toString x]

/-- The statements actually executed inside the try block of map.cpp
lines 35-41: only `myMap.at("apple")` (the out-of-range `myMap.at("grape")`
on line 38 is commented out). -/
def mapAtTry : Except String (List String) := do
  let x ← mapAt mapDemo "apple"
  pure ["Value for 'apple' (using at()): " ++ toString x]

/-- The statements actually executed inside the try block of
unordered_map.cpp lines 45-51: only `myMap.at("apple")` (the out-of-range
`myMap.at("grape")` on line 48 is commented out). -/
def umapAtTry : Except String (List String) := do
  let x ← mapAt umapDemo "apple"
  pure ["Value for 'apple' (using at()): " ++ toString x]

/-- The statements executed inside the try block of string_view.cpp
lines 49-53: the out-of-range `access_view.at(10)`, which is live code. -/
def svAtTry : Except String (List String) := do
  let c ← svAt accessView 10
  pure [String.mk [c]]

/-- Model of a `catch (const std::out_of_range&)` handler around a try
block: on success the block's output stands; on an exception the handler's
message is printed and execution continues normally after the block. -/
def catchOutOfRange (c : Except String (List String)) : List String :=
  match c with
  | Except.ok out => out
  | Except.error e => ["Caught exception: " ++ e]

/-- Claim C1 counterexample: in the vector and map demonstrations no
out-of-range access through `at()` is performed at all — the out-of-range
calls (vector.cpp line 68, map.cpp line 38) are commented out, so the
executed try blocks perform only in-bounds accesses and complete without
raising `std::out_of_range`, contradicting the claim that every such
program performs an out-of-range `at()` that raises and is caught. -/
theorem vector_map_at_no_exception :
    vectorAtTry = Except.ok ["Element at index 2 (using at()): 20"] ∧
    mapAtTry = Except.ok ["Value for 'apple' (using at()): 5"] := by
  constructor <;> rfl

/-- Claim C1 (amended): only the string_view demonstration performs an
out-of-range `at()`: `access_view.at(10)` raises `std::out_of_range`, the
surrounding handler catches it, and the program continues; in the vector,
array, map, and unordered_map demonstrations the out-of-range `at()` call is
commented out, the try block performs only an in-bounds `at()` which
succeeds without raising, and each program likewise continues normally. -/
theorem checkedAccess_status :
    svAt accessView 10 = Except.error "out_of_range" ∧
    catchOutOfRange svAtTry = ["Caught exception: out_of_range"] ∧
    vectorAtTry = Except.ok ["Element at index 2 (using at()): 20"] ∧
    arrayAtTry = Except.ok ["Element at index 2 (using at()): 30"] ∧
    mapAtTry = Except.ok ["Value for 'apple' (using at()): 5"] ∧
    umapAtTry = Except.ok ["Value for 'apple' (using at()): 5"] := by
  refine ⟨rfl, rfl, rfl, rfl, rfl, rfl⟩

/-! ## The optional and future demonstrations
(src/optional/optional.cpp, src/future/future.cpp) -/

/-- The function `find_first_even` of optional.cpp lines 11-18: returns an
optional holding the first even element, or an empty optional. -/
def find_first_even : List Int → Option Int
  | [] => none
  | n :: ns => if n % 2 = 0 then some n else find_first_even ns

/-- Model of `std::optional::value()` (optional.cpp lines 57-61): returns
the contained value, or raises `std::bad_optional_access` (modelled as the
error payload) when the optional is empty. -/
def optValue (o : Option Int) : Except String Int :=
  match o with
  | some v => Except.ok v
  | none => Except.error "bad_optional_access"

/-- The try/catch block of optional.cpp lines 56-64, with the output printed
before the throw preserved: `found_val.value()` is printed, then
`empty_opt.value()` raises and the `catch (std::bad_optional_access)`
handler prints the caught message. -/
def optionalValueDemo : List String :=
  match optValue (find_first_even [1, 3, 5, 8, 10]) with
  | Except.error e => ["Caught exception: " ++ e]
  | Except.ok v =>
      let pre := ["Using value(): " ++ toString v,
        "Trying to access empty_opt.value()..."]
      match optValue none with
      | Except.error e => pre ++ ["Caught exception: " ++ e]
      | Except.ok w => pre ++ [toString w]

/-- The function `calculate_with_error` of future.cpp lines 19-24: it throws
`std::runtime_error("An error occurred during calculation!")`, modelled as
an `Except` error carrying the message. -/
def calculate_with_error : Except String Int :=
  Except.error "An error occurred during calculation!"

/-- The shared state of `promise_with_error` after the exception producer of
future.cpp lines 96-104 ran: the producer calls `calculate_with_error`,
catches whatever it throws and stores it with `set_exception`, so the state
holds exactly the exception the call produced. -/
def promiseStoredState : Except String Int :=
  match calculate_with_error with
  | Except.ok v => Except.ok v
  | Except.error e => Except.error e

/-- The try/catch block of future.cpp lines 106-110:
`future_with_error.get()` rethrows the stored exception and the handler
prints its message. -/
def futureErrorDemo : List String :=
  match promiseStoredState with
  | Except.ok v => ["Result: " ++ toString v]
  | Except.error e => ["Caught expected exception from promise: " ++ e]

/-- Claim C6: `value()` on an empty optional raises
`std::bad_optional_access`, which the optional demonstration catches (after
successfully printing the value 8 found by `find_first_even`), and `get()`
on a future whose promise stored an exception via `set_exception` rethrows
the stored `std::runtime_error`, which the future demonstration catches. -/
theorem optional_future_exceptions :
    find_first_even [1, 3, 5, 8, 10] = some 8 ∧
    optValue none = Except.error "bad_optional_access" ∧
    optionalValueDemo = ["Using value(): 8",
      "Trying to access empty_opt.value()...",
      "Caught exception: bad_optional_access"] ∧
    promiseStoredState = Except.error "An error occurred during calculation!" ∧
    futureErrorDemo =
      ["Caught expected exception from promise: An error occurred during calculation!"] := by
  refine ⟨rfl, rfl, rfl, rfl, rfl⟩

/-! ## The mutex demonstration (src/mutex/mutex.cpp) -/

/-- The state shared by the two `std::call_once` threads of mutex.cpp
lines 147-161: the `std::once_flag` and the number of times
`expensive_initialization` has been executed. -/
structure OnceState where
  flag : Bool
  count : Nat
deriving DecidableEq

/-- Model of one invocation of
`std::call_once(flag, expensive_initialization)` (mutex.cpp line 153).  The
standard guarantees the invocation is atomic with respect to the flag:
exactly one invocation runs the callable and sets the flag, every other
invocation observes the set flag and returns without running it. -/
def call_once_step (s : OnceState) : OnceState :=
  if s.flag then s else { flag := true, count := s.count + 1 }

/-- An interleaving of the `std::call_once` invocations of the two threads
`t_once1`, `t_once2` (mutex.cpp lines 158-159): the schedule lists, in
execution order, which thread's atomic invocation runs; the fold runs them
from the initial state (flag clear, zero executions). -/
def runCallOnce (order : List (Fin 2)) : OnceState :=
  order.foldl (fun st _ => call_once_step st) { flag := false, count := 0 }

theorem foldl_call_once_flagged :
    ∀ (l : List (Fin 2)) (c : Nat),
      l.foldl (fun st _ => call_once_step st) { flag := true, count := c } =
        ({ flag := true, count := c } : OnceState) := by
  intro l
  induction l with
  | nil => intro c; rfl
  | cons t rest ih =>
      intro c
      simp only [List.foldl_cons, call_once_step, if_true]
      exact ih c

/-- Claim C8: when two threads each invoke `std::call_once` on the same
`std::once_flag` with `expensive_initialization`, the function is executed
exactly once in total, regardless of the interleaving: under every
non-empty schedule of the atomic invocations (in particular both orders of
the two threads) the execution count ends at 1. -/
theorem call_once_exactly_once :
    (∀ order : List (Fin 2), order ≠ [] → (runCallOnce order).count = 1) ∧
    (runCallOnce [0, 1]).count = 1 ∧ (runCallOnce [1, 0]).count = 1 := by
  refine ⟨?_, by decide, by decide⟩
  intro order h
  cases order with
  | nil => exact absurd rfl h
  | cons t rest =>
      simp only [runCallOnce, List.foldl_cons]
      rw [show call_once_step { flag := false, count := 0 } =
        ({ flag := true, count := 1 } : OnceState) from rfl]
      rw [foldl_call_once_flagged rest 1]

/-- Witness for claim C8: the schedule in which thread 0's invocation runs
first, then thread 1's. -/
theorem call_once_exactly_once_witness : (runCallOnce [0, 1]).count = 1 :=
  call_once_exactly_once.1 [0, 1] (by decide)

/-! ## The file stream demonstration (src/fstream/fstream.cpp) -/

/-- A file system: file name to byte contents, `none` when the file does not
exist.  fstream.cpp is the only program that touches files; every other
demonstration neither reads nor writes any file. -/
def FS : Type := String → Option (List Nat)

/-- Overwriting creation of a file, as `std::ofstream` open-write-close
does: the file's content is replaced wholesale. -/
def setFile (fs : FS) (name : String) (c : List Nat) : FS :=
  fun m => if m = name then some c else fs m

/-- The bytes of a string, as written by `operator<<` / `.write`. -/
def strBytes (s : String) : List Nat := s.toList.map Char.toNat

/-- A string rebuilt from file bytes, as read back by `std::getline`. -/
def bytesStr (b : List Nat) : String := String.mk (b.map Char.ofNat)

/-- The lines a `while (std::getline(in, line))` loop yields from a file's
bytes: split at newline bytes; a trailing newline does not produce an extra
empty line. -/
def linesOf (c : List Nat) : List (List Nat) :=
  let parts := c.splitOn 10
  if parts.getLast? = some [] then parts.dropLast else parts

/-- The little-endian bytes `out.write(reinterpret_cast<char*>(&number),
sizeof(number))` stores for an `int` (fstream.cpp line 95): the four bytes
of the value's 32-bit two's-complement representation. -/
def intToBytes (n : Int) : List Nat :=
  let u := (n % 4294967296).toNat
  [u % 256, u / 256 % 256, u / 65536 % 256, u / 16777216 % 256]

/-- The `int` recovered by `in.read(reinterpret_cast<char*>(&recovered),
sizeof(recovered))` (fstream.cpp line 100): recompose the 32-bit word and
interpret it in two's complement. -/
def bytesToInt (b : List Nat) : Int :=
  let u := b.getD 0 0 + 256 * b.getD 1 0 + 65536 * b.getD 2 0 +
    16777216 * b.getD 3 0
  if u < 2147483648 then (u : Int) else (u : Int) - 4294967296

/-- The banner of fstream.cpp lines 5-11. -/
def welcome_message : List String :=
  ["****************", "* #include <fstream> *", "*** fstream  ***",
   "****************"]

/-- fstream.cpp lines 40-51: writes "Hello, file!" plus newline, the single
character 'A' via `.put`, and the ten raw bytes of "Raw bytes\n" to
output.txt; prints nothing on the success path. -/
def example_ofstream (fs : FS) : List String × FS :=
  ([], setFile fs "output.txt"
    (strBytes "Hello, file!\n" ++ [65] ++ strBytes "Raw bytes\n"))

/-- fstream.cpp lines 20-32: reads input.txt line by line when it exists,
otherwise reports that it could not be opened; the file system is not
modified. -/
def example_ifstream (fs : FS) : List String × FS :=
  (match fs "input.txt" with
   | some c => (linesOf c).map (fun l => "Read line: " ++ bytesStr l)
   | none => ["Could not open input.txt"], fs)

/-- fstream.cpp lines 59-70: truncates data.txt, writes two lines, seeks
back to the start and reads them back. -/
def example_fstream (fs : FS) : List String × FS :=
  ((linesOf (strBytes "Line 1\nLine 2\n")).map
    (fun l => "fstream read: " ++ bytesStr l),
   setFile fs "data.txt" (strBytes "Line 1\nLine 2\n"))

/-- fstream.cpp lines 77-85: opens input.txt and, when that succeeds,
prints the open/close messages. -/
def example_open_close_isopen (fs : FS) : List String × FS :=
  (match fs "input.txt" with
   | some _ => ["File opened successfully!", "File closed."]
   | none => [], fs)

/-- fstream.cpp lines 92-103: writes the integer 12345 to binary.dat as raw
bytes, then reads the bytes back and decodes them; `recovered` starts at 0
and keeps that value if the read yields nothing. -/
def example_read_write (fs : FS) : List String × FS :=
  let fs1 := setFile fs "binary.dat" (intToBytes 12345)
  (match fs1 "binary.dat" with
   | some b => ["Recovered number: " ++ toString (bytesToInt b)]
   | none => ["Recovered number: 0"], fs1)

/-- fstream.cpp lines 110-122: writes 'X' and a newline to chars.txt via
`.put`, then reads the characters back one at a time with `.get`. -/
def example_get_put (fs : FS) : List String × FS :=
  ([88, 10].map (fun ch => "Character read: " ++ bytesStr [ch]),
   setFile fs "chars.txt" [88, 10])

/-- fstream.cpp lines 129-140: writes two lines to lines.txt and reads them
back with `std::getline`. -/
def example_getline (fs : FS) : List String × FS :=
  ((linesOf (strBytes "First line\nSecond line\n")).map
    (fun l => "Line: " ++ bytesStr l),
   setFile fs "lines.txt" (strBytes "First line\nSecond line\n"))

/-- fstream.cpp lines 148-167: writes "abcdef" to seek.txt, seeks to
position 2 and reads 'c' (the get pointer then stands at 3), overwrites
position 4 with 'Z', and reads the modified single line back. -/
def example_seek_tell (fs : FS) : List String × FS :=
  let c := strBytes "abcdef"
  let c2 := c.set 4 90
  (["Character at position 2: " ++ bytesStr [c.getD 2 0],
    "Current get pointer: 3",
    "Modified line: " ++ bytesStr ((linesOf c2).getD 0 [])],
   setFile fs "seek.txt" c2)

/-- fstream.cpp lines 178-189: reads lines.txt to exhaustion and prints the
stream state flags; after a getline loop on an existing file eof and fail
are set, otherwise only fail is. -/
def example_state (fs : FS) : List String × FS :=
  (match fs "lines.txt" with
   | some _ => ["EOF: 1, Good: 0, Bad: 0, Fail: 1"]
   | none => ["EOF: 0, Good: 0, Bad: 0, Fail: 1"], fs)

/-- fstream.cpp lines 196-207: writes "42 3.14" to numbers.txt with
formatted output and reads the two numbers back with formatted input. -/
def example_formatted_io (fs : FS) : List String × FS :=
  (["Read numbers: 42, 3.14"], setFile fs "numbers.txt" (strBytes "42 3.14\n"))

/-- fstream.cpp lines 214-219: writes a sentence to flush.txt and flushes;
nothing is printed. -/
def example_flush (fs : FS) : List String × FS :=
  ([], setFile fs "flush.txt" (strBytes "This will be flushed."))

/-- The `main` of fstream.cpp lines 226-240: the welcome banner followed by
the eleven examples in order, threading the file system through them. -/
def fstreamRun (fs : FS) : List String × FS :=
  let r1 := example_ofstream fs
  let r2 := example_ifstream r1.2
  let r3 := example_fstream r2.2
  let r4 := example_open_close_isopen r3.2
  let r5 := example_read_write r4.2
  let r6 := example_get_put r5.2
  let r7 := example_getline r6.2
  let r8 := example_seek_tell r7.2
  let r9 := example_state r8.2
  let r10 := example_formatted_io r9.2
  let r11 := example_flush r10.2
  (welcome_message ++ r1.1 ++ r2.1 ++ r3.1 ++ r4.1 ++ r5.1 ++ r6.1 ++
    r7.1 ++ r8.1 ++ r9.1 ++ r10.1 ++ r11.1, r11.2)

theorem setFile_ne (fs : FS) (n : String) (c : List Nat) (m : String)
    (h : m ≠ n) : setFile fs n c m = fs m := by
  simp [setFile, h]

theorem setFile_same (fs : FS) (n : String) (c : List Nat) :
    setFile fs n c n = some c := by
  simp [setFile]

/-- Claim C7: running fstream.cpp twice in succession from the same initial
file system produces the same output on the second run as on the first:
every file the program reads is either input.txt, which it never writes, or
a file it has itself (re)written earlier in the same run, so files left
behind by a prior run do not change the observable behaviour. -/
theorem fstream_rerun_same_output (fs : FS) :
    (fstreamRun (fstreamRun fs).2).1 = (fstreamRun fs).1 := by
  simp only [fstreamRun, example_ofstream, example_ifstream, example_fstream,
    example_open_close_isopen, example_read_write, example_get_put,
    example_getline, example_seek_tell, example_state, example_formatted_io,
    example_flush]
  simp [setFile]

/-! ## Program entry points as functions of the argument vector -/

/-- algorithm.cpp's entry point viewed as a function of the process argument
vector: `int main()` (algorithm.cpp line 23) declares no parameters, so the
body never consults `argv`; the modelled output covers the sort and
remove-erase sections. -/
def algorithm_main (_argv : List String) : List String :=
  ["After sort: " ++ toString (stdSort sortVecInput),
   "After remove(2) and erase: " ++ toString (removeErase removeVecInput 2)]

/-- vector.cpp's entry point viewed as a function of the process argument
vector: `int main()` (vector.cpp line 8) declares no parameters; the
modelled output covers the Part-2 element-access section. -/
def vector_main (_argv : List String) : List String :=
  catchOutOfRange vectorAtTry ++
    ["Element at index 2 (using []): " ++ toString (vectorDemoPart2.getD 2 0)]

/-- fstream.cpp's entry point viewed as a function of the process argument
vector and the initial file system: `int main()` (fstream.cpp line 226)
declares no parameters. -/
def fstream_main (_argv : List String) (fs : FS) : List String × FS :=
  fstreamRun fs

/-- Claim C5: no program's behaviour depends on the argument vector: every
`main` in the repository is declared `int main()` with no parameters, so
two runs of the same program under different argument vectors (and the same
external file state) produce identical output. -/
theorem mains_ignore_argv :
    (∀ a b : List String, algorithm_main a = algorithm_main b) ∧
    (∀ a b : List String, vector_main a = vector_main b) ∧
    (∀ (a b : List String) (fs : FS), fstream_main a fs = fstream_main b fs) :=
  ⟨fun _ _ => rfl, fun _ _ => rfl, fun _ _ _ => rfl⟩

theorem bytesToInt_intToBytes (n : Int) (h1 : -2147483648 ≤ n)
    (h2 : n < 2147483648) : bytesToInt (intToBytes n) = n := by
  unfold intToBytes bytesToInt
  have hb : (4294967296 : Int) ≠ 0 := by decide
  have hmod0 : (0 : Int) ≤ n % 4294967296 := Int.emod_nonneg n hb
  have hmod1 : n % 4294967296 < 4294967296 := Int.emod_lt_of_pos n (by decide)
  set u := (n % 4294967296).toNat with hu
  have hu' : (u : Int) = n % 4294967296 := Int.toNat_of_nonneg hmod0
  have hu32 : u < 4294967296 := by omega
  have hrecomp : u % 256 + 256 * (u / 256 % 256) + 65536 * (u / 65536 % 256) +
      16777216 * (u / 16777216 % 256) = u := by omega
  simp only [List.getD_cons_zero, List.getD_cons_succ]
  rw [hrecomp]
  have hdiv := Int.ediv_add_emod n 4294967296
  split <;> omega

/-- Claim C4: in the binary read/write example, writing the integer 12345 to
binary.dat as `sizeof(int)` raw bytes and reading `sizeof(int)` bytes back
recovers exactly 12345, whatever the surrounding file system holds; the
write-then-read round trip is the identity on every stored value
representable in a 32-bit `int`. -/
theorem binary_roundtrip :
    (∀ fs : FS, (example_read_write fs).1 = ["Recovered number: 12345"]) ∧
    (∀ n : Int, -2147483648 ≤ n → n < 2147483648 →
      bytesToInt (intToBytes n) = n) := by
  constructor
  · intro fs
    simp [example_read_write, setFile]
    rfl
  · intro n h1 h2
    exact bytesToInt_intToBytes n h1 h2

/-- Witness for claim C4: the round trip evaluated at the demonstrated
value 12345, whose 32-bit range bounds are discharged concretely. -/
theorem binary_roundtrip_witness : bytesToInt (intToBytes 12345) = 12345 :=
  binary_roundtrip.2 12345 (by decide) (by decide)
